import Mathlib

/-!
Verification development for the two OpenGL programs of this repository:
`src/cr1ms0nh3ad_opengl/main.cpp` (modelled below in namespace `Prog1`) and
the second program `src/unnamed/part_000` (namespace `Prog2`).

External collaborators (GLFW, the GL driver, GLAD) are modelled as an oracle
`Env` supplying every outcome the code can observe: whether window creation
succeeds, whether the GL loader succeeds, the driver-reported compile/link
status bits and info-log strings, the sampled state of the exit key at each
loop iteration, and the resize events delivered by each `glfwPollEvents`
call.  Each program is a function from this oracle (plus fuel bounding the
number of frame-loop iterations, since the C++ `while` loop need not
terminate) to its exit code and the ordered trace of GLFW / GL calls it
performs.  Machine floats appearing in the sources (vertex coordinates,
clear colors) are exactly representable and are modelled as rationals.
-/

/-- GLFW key constant used by `processInput` in both sources. -/
def GLFW_KEY_BACKSPACE : Nat := 259

/-- GLFW key-state constant: key currently pressed. -/
def GLFW_PRESS : Nat := 1

/-- GLFW key-state constant: key currently released. -/
def GLFW_RELEASE : Nat := 0

/-- GLFW core-profile constant passed to the profile window hint. -/
def GLFW_OPENGL_CORE_PROFILE : Nat := 204801

/-- Window width, `SCR_WIDTH` in both sources. -/
def SCR_WIDTH : Nat := 1024

/-- Window height, `SCR_HEIGHT` in both sources. -/
def SCR_HEIGHT : Nat := 1024

/-- The window hints both programs set before creating the window. -/
inductive HintTag where
  | contextVersionMajor
  | contextVersionMinor
  | openglProfile
  deriving DecidableEq, Repr

/-- Shader stage kinds (`GL_VERTEX_SHADER` / `GL_FRAGMENT_SHADER`). -/
inductive ShaderKind where
  | vertex
  | fragment
  deriving DecidableEq, Repr

/-- Buffer binding targets (`GL_ARRAY_BUFFER` / `GL_ELEMENT_ARRAY_BUFFER`). -/
inductive BufferTarget where
  | arrayBuffer
  | elementArrayBuffer
  deriving DecidableEq, Repr

/-- Buffer usage policy (`GL_STATIC_DRAW` is the only one used). -/
inductive Usage where
  | staticDraw
  deriving DecidableEq, Repr

/-- Vertex attribute component type (`GL_FLOAT` is the only one used). -/
inductive CompType where
  | glFloat
  deriving DecidableEq, Repr

/-- Primitive interpretation of a draw call (`GL_TRIANGLES`). -/
inductive DrawMode where
  | triangles
  deriving DecidableEq, Repr

/-- Index element type of a draw call (`GL_UNSIGNED_INT`). -/
inductive IndexType where
  | unsignedInt
  deriving DecidableEq, Repr

/-- Polygon face selector (`GL_FRONT_AND_BACK`). -/
inductive PolyFace where
  | frontAndBack
  deriving DecidableEq, Repr

/-- Polygon rasterization mode: `GL_FILL` (the GL default) or `GL_LINE`. -/
inductive PolyMode where
  | fill
  | line
  deriving DecidableEq, Repr

/-- One observable GLFW / GL / console call performed by the programs. -/
inductive Act where
  | glfwInit
  | windowHint (tag : HintTag) (value : Nat)
  | createWindow (width height : Nat) (title : String)
  | makeContextCurrent
  | setFramebufferSizeCallback
  | logMsg (msg : String)
  | createShader (kind : ShaderKind) (id : Nat)
  | shaderSource (id : Nat) (src : String)
  | compileShader (id : Nat)
  | getShaderiv (id : Nat)
  | getShaderInfoLog (id cap : Nat)
  | createProgram (id : Nat)
  | attachShader (prog sh : Nat)
  | linkProgram (id : Nat)
  | getProgramiv (id : Nat)
  | getProgramInfoLog (id cap : Nat)
  | deleteShader (id : Nat)
  | genVertexArray (id : Nat)
  | genBuffer (id : Nat)
  | bindVertexArray (id : Nat)
  | bindBuffer (target : BufferTarget) (id : Nat)
  | bufferDataF (target : BufferTarget) (data : List Rat) (usage : Usage)
  | bufferDataU (target : BufferTarget) (data : List Nat) (usage : Usage)
  | vertexAttribPointer (index comps : Nat) (ty : CompType) (normalized : Bool)
      (stride offset : Nat)
  | enableVertexAttribArray (index : Nat)
  | polygonMode (face : PolyFace) (mode : PolyMode)
  | clearColor (r g b a : Rat)
  | clearColorBuffer
  | useProgram (id : Nat)
  | drawElements (mode : DrawMode) (count : Nat) (ty : IndexType) (offset : Nat)
  | swapBuffers
  | pollEvents
  | getKey (key : Nat)
  | setWindowShouldClose
  | viewport (x y w h : Int)
  | terminate
  deriving DecidableEq, Repr

/-- The mutable GLFW window state visible to the programs: the should-close
flag plus the creation-time dimensions.  Only the flag is ever written. -/
structure WindowState where
  shouldClose : Bool
  width : Nat
  height : Nat
  deriving DecidableEq, Repr

/-- The oracle for everything the environment (GLFW, GLAD, GL driver, the
user) decides: startup outcomes, driver status bits and info logs (each info-log
string models the driver text as read into the program's 512-byte buffer),
per frame-loop iteration the sampled exit-key state, and the resize events
delivered by that iteration's `glfwPollEvents`. -/
structure Env where
  windowCreated : Bool
  gladOk : Bool
  vertexCompileOk : Bool
  fragmentCompileOk : Bool
  linkOk : Bool
  vertexInfoLog : String
  fragmentInfoLog : String
  programInfoLog : String
  keyPressed : Nat → Bool
  resizes : Nat → List (Int × Int)

/-- Result of `glfwGetKey` for the backspace key given whether it is
currently pressed. -/
def glfwGetKey (pressed : Bool) : Nat :=
  if pressed then GLFW_PRESS else GLFW_RELEASE

/-- `glfwSetWindowShouldClose`. -/
def glfwSetWindowShouldClose (w : WindowState) (b : Bool) : WindowState :=
  { w with shouldClose := b }

/-- `processInput`: identical in both source files
(`main.cpp` lines 75-81, `part_000` lines 205-211).  If backspace is in the
pressed state, set the window's should-close flag; otherwise do nothing. -/
def processInput (pressed : Bool) (w : WindowState) : WindowState :=
  if glfwGetKey pressed = GLFW_PRESS then glfwSetWindowShouldClose w true else w

/-- The calls `processInput` performs, in order. -/
def processInputTrace (pressed : Bool) : List Act :=
  Act.getKey GLFW_KEY_BACKSPACE ::
    (if pressed then [Act.setWindowShouldClose] else [])

/-- `framebuffer_size_callback`: identical in both source files; it calls
`glViewport(0, 0, width, height)`. -/
def framebuffer_size_callback (width height : Int) : Act :=
  Act.viewport 0 0 width height

/-- Calls both programs perform up to and including `glfwCreateWindow`. -/
def preWindowTrace : List Act :=
  [Act.glfwInit,
   Act.windowHint HintTag.contextVersionMajor 3,
   Act.windowHint HintTag.contextVersionMinor 3,
   Act.windowHint HintTag.openglProfile GLFW_OPENGL_CORE_PROFILE,
   Act.createWindow SCR_WIDTH SCR_HEIGHT "cr1ms0nh3ad"]

/-- Calls performed once window creation has succeeded: make the context
current and install the resize callback. -/
def contextReadyTrace : List Act :=
  preWindowTrace ++ [Act.makeContextCurrent, Act.setFramebufferSizeCallback]

/-- Window state right after creation: should-close is unset. -/
def initialWindow : WindowState :=
  { shouldClose := false, width := SCR_WIDTH, height := SCR_HEIGHT }

/-- Trace of one frame-loop iteration `n`: sample input (possibly setting the
should-close flag), run the program-specific render body, swap buffers, poll
events — which synchronously runs `framebuffer_size_callback` for each resize
event delivered at this iteration. -/
def iterTrace (env : Env) (body : List Act) (n : Nat) : List Act :=
  processInputTrace (env.keyPressed n) ++ body ++
    [Act.swapBuffers, Act.pollEvents] ++
    (env.resizes n).map (fun r => framebuffer_size_callback r.1 r.2)

/-- The `while (!glfwWindowShouldClose(window))` loop shared by both
programs, parameterized by the render body.  `fuel` bounds the number of
iterations (the C++ loop runs unboundedly if the exit key is never pressed);
`n` is the current iteration index; the window state carries the
should-close flag written by `processInput`. -/
def runLoop (env : Env) (body : List Act) : Nat → Nat → WindowState → List Act
  | 0, _, _ => []
  | fuel+1, n, st =>
    if st.shouldClose then []
    else
      iterTrace env body n ++
        runLoop env body fuel (n+1) (processInput (env.keyPressed n) st)

namespace Prog2

/-- `vertexShaderSource` from `part_000`. -/
def vertexShaderSource : String :=
  "#version 330 core\nlayout (location = 0) in vec3 aPos;\nvoid main()\n\x7b\n\tgl_Position = vec4(aPos.x, aPos.y, aPos.z, 1.0);\n\x7d"

/-- `fragmentShaderSource` from `part_000`. -/
def fragmentShaderSource : String :=
  "#version 330 core\nout vec4 FragColor;\nvoid main()\n\x7b\n\tFragColor = vec4(1.0f, 0.0f, 0.0f, 1.0f);\n\x7d"

/-- Handle returned by `glCreateShader(GL_VERTEX_SHADER)`. -/
def vertexShader : Nat := 1

/-- Handle returned by `glCreateShader(GL_FRAGMENT_SHADER)`. -/
def fragmentShader : Nat := 2

/-- Handle returned by `glCreateProgram()`. -/
def shaderProgram : Nat := 3

/-- Vertex array handle `VAO`. -/
def VAO : Nat := 4

/-- Vertex buffer handle `VBO`. -/
def VBO : Nat := 5

/-- Element (index) buffer handle `EBO`. -/
def EBO : Nat := 6

/-- The shader build sequence of `part_000` lines 63-111: compile the vertex
stage, query its compile status and log a diagnostic (driver text read into
the 512-byte buffer) on failure; compile the fragment stage (the source
performs no status query for it); create the program, attach both stages,
link, query link status and log a diagnostic on failure; finally delete both
stage handles.  No step aborts. -/
def buildTrace (env : Env) : List Act :=
  [Act.createShader ShaderKind.vertex vertexShader,
   Act.shaderSource vertexShader vertexShaderSource,
   Act.compileShader vertexShader,
   Act.getShaderiv vertexShader] ++
  (if env.vertexCompileOk then []
   else
     [Act.getShaderInfoLog vertexShader 512,
      Act.logMsg ("ERROR::SHADER::VERTEX::COMPILATION_FAILED\n" ++
        env.vertexInfoLog)]) ++
  [Act.createShader ShaderKind.fragment fragmentShader,
   Act.shaderSource fragmentShader fragmentShaderSource,
   Act.compileShader fragmentShader,
   Act.createProgram shaderProgram,
   Act.attachShader shaderProgram vertexShader,
   Act.attachShader shaderProgram fragmentShader,
   Act.linkProgram shaderProgram,
   Act.getProgramiv shaderProgram] ++
  (if env.linkOk then []
   else
     [Act.getProgramInfoLog shaderProgram 512,
      Act.logMsg ("ERROR::SHADER::PROGRAM::LINKING::FAILED\n" ++
        env.programInfoLog)]) ++
  [Act.deleteShader vertexShader, Act.deleteShader fragmentShader]

/-- The `vertices` array of `part_000` (four `vec3` positions; the float
literals are exactly representable and modelled as rationals). -/
def vertices : List Rat :=
  [1/2, 1/2, 0,
   1/2, -1/2, 0,
   -1/2, -1/2, 0,
   -1/2, 1/2, 0]

/-- The `indices` array of `part_000` (two triangles). -/
def indices : List Nat := [0, 1, 3, 1, 2, 3]

/-- `sizeof(float)` in bytes. -/
def floatSize : Nat := 4

/-- Geometry setup of `part_000` lines 129-158: generate the array and the
two buffers, bind them, upload vertices and indices with static usage,
configure and enable attribute slot 0, then unbind. -/
def geometryTrace : List Act :=
  [Act.genVertexArray VAO,
   Act.genBuffer VBO,
   Act.genBuffer EBO,
   Act.bindVertexArray VAO,
   Act.bindBuffer BufferTarget.arrayBuffer VBO,
   Act.bindBuffer BufferTarget.elementArrayBuffer EBO,
   Act.bufferDataF BufferTarget.arrayBuffer vertices Usage.staticDraw,
   Act.bufferDataU BufferTarget.elementArrayBuffer indices Usage.staticDraw,
   Act.vertexAttribPointer 0 3 CompType.glFloat false (3 * floatSize) 0,
   Act.enableVertexAttribArray 0,
   Act.bindBuffer BufferTarget.arrayBuffer 0,
   Act.bindVertexArray 0]

/-- The render body of one frame-loop iteration of `part_000` (lines
172-182): set the clear color, clear, bind the program, bind the array
handle and the index buffer, and issue the single indexed draw call. -/
def renderBody : List Act :=
  [Act.clearColor 0 0 0 1,
   Act.clearColorBuffer,
   Act.useProgram shaderProgram,
   Act.bindVertexArray VAO,
   Act.bindBuffer BufferTarget.elementArrayBuffer EBO,
   Act.drawElements DrawMode.triangles 6 IndexType.unsignedInt 0]

/-- Everything `part_000`'s `main` does after a successful startup and
before entering the frame loop: shader build, geometry upload, and switching
to wireframe rasterization. -/
def setupTrace (env : Env) : List Act :=
  contextReadyTrace ++ buildTrace env ++ geometryTrace ++
    [Act.polygonMode PolyFace.frontAndBack PolyMode.line]

/-- `main` of `part_000`: returns the process exit code and the call trace.
Window-creation failure logs, terminates GLFW and exits `-1`; loader failure
logs and exits `-1` (without terminating); otherwise build shaders, upload
geometry, set wireframe mode, run the frame loop, terminate and exit `0`. -/
def main (env : Env) (fuel : Nat) : Int × List Act :=
  if env.windowCreated = false then
    (-1, preWindowTrace ++
      [Act.logMsg "failed to create GLFW window", Act.terminate])
  else if env.gladOk = false then
    (-1, contextReadyTrace ++ [Act.logMsg "failed to initialize GLAD"])
  else
    (0, setupTrace env ++ runLoop env renderBody fuel 0 initialWindow ++
      [Act.terminate])

end Prog2

namespace Prog1

/-- The render body of one frame-loop iteration of `main.cpp` (lines 50-53):
set the clear color and clear.  The float literals 1.0f, 0.325f, 0.7f, 1.0f
are exactly representable and modelled by the corresponding rationals. -/
def renderBody : List Act :=
  [Act.clearColor 1 (13/40) (7/10) 1,
   Act.clearColorBuffer]

/-- `main` of `main.cpp`: same startup and teardown as the second program,
with a clear-only frame loop and no GPU resources. -/
def main (env : Env) (fuel : Nat) : Int × List Act :=
  if env.windowCreated = false then
    (-1, preWindowTrace ++
      [Act.logMsg "failed to create GLFW window", Act.terminate])
  else if env.gladOk = false then
    (-1, contextReadyTrace ++ [Act.logMsg "failed to initialize GLAD"])
  else
    (0, contextReadyTrace ++ runLoop env renderBody fuel 0 initialWindow ++
      [Act.terminate])

end Prog1

/-- Predicate: the action is a draw call. -/
def isDrawAct : Act → Bool
  | Act.drawElements _ _ _ _ => true
  | _ => false

/-- Predicate: the action clears the color buffer. -/
def isClearAct : Act → Bool
  | Act.clearColorBuffer => true
  | _ => false

/-- Predicate: the action sets the window's should-close flag. -/
def isSetCloseAct : Act → Bool
  | Act.setWindowShouldClose => true
  | _ => false

/-- Predicate: the action changes the polygon rasterization mode. -/
def isPolygonModeAct : Act → Bool
  | Act.polygonMode _ _ => true
  | _ => false

/-- Predicate: the action configures a vertex attribute pointer. -/
def isVAPAct : Act → Bool
  | Act.vertexAttribPointer _ _ _ _ _ _ => true
  | _ => false

/-- Predicate: the action releases the windowing system (`glfwTerminate`). -/
def isTerminateAct : Act → Bool
  | Act.terminate => true
  | _ => false

/-- The diagnostic messages written to the console, in order. -/
def loggedDiagnostics (tr : List Act) : List String :=
  tr.filterMap (fun a => match a with | Act.logMsg s => some s | _ => none)

/-- Generic trace observer: thread a state through the trace with `upd`
(applied at every action) and record the state in effect at each action
satisfying `hit`. -/
def scanHits {σ : Type} (upd : σ → Act → σ) (hit : Act → Bool) :
    σ → List Act → List σ
  | _, [] => []
  | s, a :: rest =>
    (if hit a then [s] else []) ++ scanHits upd hit (upd s a) rest

/-- Ambient-viewport transition: `glViewport` sets the viewport. -/
def vpUpd (v : Int × Int) : Act → Int × Int
  | Act.viewport _ _ w h => (w, h)
  | _ => v

/-- Polygon-mode transition: `glPolygonMode` sets the mode. -/
def modeUpd (m : PolyMode) : Act → PolyMode
  | Act.polygonMode _ m2 => m2
  | _ => m

/-- Dimensions of the last resize event in `rs`, or `v` if none. -/
def lastResize (v : Int × Int) (rs : List (Int × Int)) : Int × Int :=
  rs.foldl (fun _ r => r) v

/-- Iterate a per-frame state transition `step` from `v0` for `n` frames. -/
def stepIter {σ : Type} (step : σ → Nat → σ) (v0 : σ) : Nat → σ
  | 0 => v0
  | n+1 => step (stepIter step v0 n) n

/-- The list of per-frame states `[v0, step v0 0, ...]` for frames
`0, ..., m-1`. -/
def stepsList {σ : Type} (step : σ → Nat → σ) (v0 : σ) : Nat → List σ
  | 0 => []
  | n+1 => stepsList step v0 n ++ [stepIter step v0 n]

/-- Viewport state transition across frame `n`: the viewport after frame `n`
is the size of the last resize event processed by its `glfwPollEvents`, or
the previous viewport if none arrived. -/
def vpStep (env : Env) (v : Int × Int) (n : Nat) : Int × Int :=
  lastResize v (env.resizes n)

/-- Concatenation of per-iteration traces for iterations `0, ..., m-1`. -/
def iterSeq (f : Nat → List Act) : Nat → List Act
  | 0 => []
  | n+1 => iterSeq f n ++ f n

lemma processInput_false (w : WindowState) : processInput false w = w := rfl

lemma processInput_true (w : WindowState) :
    processInput true w = { w with shouldClose := true } := rfl

lemma runLoop_stopped (env : Env) (body : List Act) (fuel n : Nat)
    (st : WindowState) (h : st.shouldClose = true) :
    runLoop env body fuel n st = [] := by
  cases fuel <;> simp [runLoop, h]

lemma countP_resize_map (p : Act → Bool)
    (hp : ∀ x y w h, p (Act.viewport x y w h) = false)
    (rs : List (Int × Int)) :
    List.countP p (rs.map (fun r => framebuffer_size_callback r.1 r.2)) = 0 := by
  induction rs with
  | nil => rfl
  | cons r rs ih => simp [framebuffer_size_callback, List.countP_cons, hp, ih]

lemma countP_iterTrace (env : Env) (body : List Act) (p : Act → Bool) (n : Nat)
    (hk : p (Act.getKey GLFW_KEY_BACKSPACE) = false)
    (hs : p Act.setWindowShouldClose = false)
    (hsw : p Act.swapBuffers = false) (hpo : p Act.pollEvents = false)
    (hvp : ∀ x y w h, p (Act.viewport x y w h) = false) :
    List.countP p (iterTrace env body n) = List.countP p body := by
  cases h : env.keyPressed n <;>
    simp [iterTrace, processInputTrace, h, List.countP_append, List.countP_cons,
      hk, hs, hsw, hpo, countP_resize_map p hvp]

lemma countP_setClose_iterTrace (env : Env) (body : List Act) (n : Nat)
    (hb : List.countP isSetCloseAct body = 0) :
    List.countP isSetCloseAct (iterTrace env body n) =
      (if env.keyPressed n then 1 else 0) := by
  cases h : env.keyPressed n <;>
    simp [iterTrace, processInputTrace, h, List.countP_append, List.countP_cons,
      isSetCloseAct, hb,
      countP_resize_map isSetCloseAct (fun _ _ _ _ => rfl)]

lemma countP_runLoop_zero (env : Env) (body : List Act) (p : Act → Bool)
    (hiter : ∀ n, List.countP p (iterTrace env body n) = 0) :
    ∀ fuel n st, List.countP p (runLoop env body fuel n st) = 0 := by
  intro fuel
  induction fuel with
  | zero => intro n st; rfl
  | succ fuel ih =>
    intro n st
    cases hsc : st.shouldClose
    · simp [runLoop, hsc, List.countP_append, hiter n, ih]
    · simp [runLoop, hsc]

/-- C4: the geometry uploaded by the second program is exactly four vertices
(12 floats) and the six indices 0,1,3,1,2,3; every index lies in
[0, len(vertices)/3) = [0, 4), and the two triangles 0,1,3 and 1,2,3 share
the edge between vertex 1 and vertex 3. -/
theorem quad_geometry_indices_valid :
    Prog2.vertices.length = 12 ∧
    Prog2.vertices.length / 3 = 4 ∧
    Prog2.indices = [0, 1, 3, 1, 2, 3] ∧
    Prog2.indices.all (fun i => i < Prog2.vertices.length / 3) = true ∧
    Prog2.indices.take 3 = [0, 1, 3] ∧
    Prog2.indices.drop 3 = [1, 2, 3] ∧
    ((Prog2.indices.take 3).contains 1 && (Prog2.indices.take 3).contains 3 &&
      (Prog2.indices.drop 3).contains 1 &&
      (Prog2.indices.drop 3).contains 3) = true ∧
    Act.bufferDataF BufferTarget.arrayBuffer Prog2.vertices Usage.staticDraw ∈
      Prog2.geometryTrace ∧
    Act.bufferDataU BufferTarget.elementArrayBuffer Prog2.indices
      Usage.staticDraw ∈ Prog2.geometryTrace := by
  refine ⟨by decide, by decide, by decide, by decide, by decide, by decide,
    by decide, ?_, ?_⟩ <;> simp [Prog2.geometryTrace]

/-- C8: the vertex layout configured by the second program binds attribute
slot 0 with exactly 3 components of 32-bit float type, normalization
disabled, stride 3 * sizeof(float) = 12 bytes, byte offset 0, and enables
slot 0; it is the only attribute-pointer call of the program. -/
theorem vertex_attribute_layout_slot0 :
    List.countP isVAPAct Prog2.geometryTrace = 1 ∧
    Act.vertexAttribPointer 0 3 CompType.glFloat false (3 * Prog2.floatSize) 0 ∈
      Prog2.geometryTrace ∧
    Act.enableVertexAttribArray 0 ∈ Prog2.geometryTrace ∧
    3 * Prog2.floatSize = 12 := by
  decide

/-- C10: in both programs, the shared `processInput` leaves the window state
entirely unchanged when backspace is not pressed, and when it is pressed it
sets the should-close flag to true and changes nothing else; the only calls
it makes are the key query and (when pressed) the should-close write. -/
theorem processInput_touches_only_should_close :
    ∀ (w : WindowState) (p : Bool),
      processInput false w = w ∧
      processInput true w = { w with shouldClose := true } ∧
      (processInput p w).width = w.width ∧
      (processInput p w).height = w.height ∧
      (processInput p w).shouldClose = (w.shouldClose || p) ∧
      processInputTrace false = [Act.getKey GLFW_KEY_BACKSPACE] ∧
      processInputTrace true =
        [Act.getKey GLFW_KEY_BACKSPACE, Act.setWindowShouldClose] := by
  intro w p
  refine ⟨rfl, rfl, ?_, ?_, ?_, rfl, rfl⟩ <;> cases p <;>
    simp [processInput, glfwGetKey, glfwSetWindowShouldClose,
      GLFW_PRESS, GLFW_RELEASE]

/-- Environment in which the vertex stage compiles, the fragment stage fails
to compile, and the driver consequently reports link failure. -/
def envFragFail : Env :=
  { windowCreated := true, gladOk := true, vertexCompileOk := true,
    fragmentCompileOk := false, linkOk := false,
    vertexInfoLog := "", fragmentInfoLog := "fragment stage error",
    programInfoLog := "link error",
    keyPressed := fun _ => false, resizes := fun _ => [] }

/-- Same as `envFragFail` except the driver reports link success, isolating
what the program observes about the fragment stage alone. -/
def envFragFailLinkOk : Env := { envFragFail with linkOk := true }

/-- C1: refuted as stated — the build sequence of the second program never
queries the fragment stage's compile status (`glGetShaderiv` is issued for
the vertex shader only), so a fragment-stage compile failure is NOT recorded
or logged under the vertex-stage policy.  In `envFragFail` (fragment stage
broken, link consequently failing) the only diagnostic logged is the link
one; in `envFragFailLinkOk` (the status bits exactly as the program reads
them: link reported ok) nothing at all is logged despite the broken fragment
stage.  The build still proceeds to a program handle in every case. -/
theorem fragment_compile_status_never_checked :
    (∀ env : Env, Act.getShaderiv Prog2.fragmentShader ∉ Prog2.buildTrace env) ∧
    loggedDiagnostics (Prog2.buildTrace envFragFail) =
      ["ERROR::SHADER::PROGRAM::LINKING::FAILED\nlink error"] ∧
    loggedDiagnostics (Prog2.buildTrace envFragFailLinkOk) = [] ∧
    Act.createProgram Prog2.shaderProgram ∈ Prog2.buildTrace envFragFail ∧
    Act.createProgram Prog2.shaderProgram ∈ Prog2.buildTrace envFragFailLinkOk := by
  refine ⟨?_, by decide, by decide, by decide, by decide⟩
  intro env
  cases hv : env.vertexCompileOk <;> cases hl : env.linkOk <;>
    simp [Prog2.buildTrace, hv, hl, Prog2.fragmentShader, Prog2.vertexShader,
      Prog2.shaderProgram, Prog2.vertexShaderSource, Prog2.fragmentShaderSource]

/-- Predicate: the action deletes a shader stage handle. -/
def isDeleteShaderAct : Act → Bool
  | Act.deleteShader _ => true
  | _ => false

/-- C7: in the second program both stage handles are released unconditionally
after the link attempt — for every environment (any combination of compile
and link outcomes) the build trace ends with the two `glDeleteShader` calls,
the link call precedes them, and no stage deletion happens elsewhere. -/
theorem stage_handles_deleted_after_link :
    ∀ env : Env, ∃ pre : List Act,
      Prog2.buildTrace env =
        pre ++ [Act.deleteShader Prog2.vertexShader,
          Act.deleteShader Prog2.fragmentShader] ∧
      Act.linkProgram Prog2.shaderProgram ∈ pre ∧
      List.countP isDeleteShaderAct pre = 0 ∧
      List.countP isDeleteShaderAct (Prog2.buildTrace env) = 2 := by
  intro env
  refine ⟨[Act.createShader ShaderKind.vertex Prog2.vertexShader,
      Act.shaderSource Prog2.vertexShader Prog2.vertexShaderSource,
      Act.compileShader Prog2.vertexShader,
      Act.getShaderiv Prog2.vertexShader] ++
    (if env.vertexCompileOk then []
     else
       [Act.getShaderInfoLog Prog2.vertexShader 512,
        Act.logMsg ("ERROR::SHADER::VERTEX::COMPILATION_FAILED\n" ++
          env.vertexInfoLog)]) ++
    [Act.createShader ShaderKind.fragment Prog2.fragmentShader,
     Act.shaderSource Prog2.fragmentShader Prog2.fragmentShaderSource,
     Act.compileShader Prog2.fragmentShader,
     Act.createProgram Prog2.shaderProgram,
     Act.attachShader Prog2.shaderProgram Prog2.vertexShader,
     Act.attachShader Prog2.shaderProgram Prog2.fragmentShader,
     Act.linkProgram Prog2.shaderProgram,
     Act.getProgramiv Prog2.shaderProgram] ++
    (if env.linkOk then []
     else
       [Act.getProgramInfoLog Prog2.shaderProgram 512,
        Act.logMsg ("ERROR::SHADER::PROGRAM::LINKING::FAILED\n" ++
          env.programInfoLog)]), ?_, ?_, ?_, ?_⟩
  · simp [Prog2.buildTrace, List.append_assoc]
  · simp
  · cases env.vertexCompileOk <;> cases env.linkOk <;> rfl
  · cases hv : env.vertexCompileOk <;> cases hl : env.linkOk <;>
      simp [Prog2.buildTrace, hv, hl, isDeleteShaderAct,
        List.countP_append, List.countP_cons]

lemma getLast_append_pair {α : Type} (l1 l2 : List α) (a : α) :
    (l1 ++ (l2 ++ [a])).getLast? = some a := by
  rw [← List.append_assoc, List.getLast?_append_cons (l1 ++ l2) a []]
  rfl

/-- Environment in which the window is created but GLAD loading fails. -/
def envGladFail : Env :=
  { windowCreated := true, gladOk := false, vertexCompileOk := true,
    fragmentCompileOk := true, linkOk := true, vertexInfoLog := "",
    fragmentInfoLog := "", programInfoLog := "",
    keyPressed := fun _ => false, resizes := fun _ => [] }

/-- C3 counterexample: when GPU function loading fails, both programs exit
with code -1 WITHOUT releasing what was acquired — GLFW was initialised and
the window created, yet no `glfwTerminate` appears anywhere in the trace
(only the window-creation failure path terminates GLFW; the loader failure
path returns straight away).  This refutes the claim that each fatal
startup failure terminates only after releasing what was acquired. -/
theorem glad_failure_exits_without_release :
    (Prog1.main envGladFail 0).1 = -1 ∧
    (Prog2.main envGladFail 0).1 = -1 ∧
    Act.glfwInit ∈ (Prog1.main envGladFail 0).2 ∧
    Act.createWindow SCR_WIDTH SCR_HEIGHT "cr1ms0nh3ad" ∈
      (Prog1.main envGladFail 0).2 ∧
    Act.terminate ∉ (Prog1.main envGladFail 0).2 ∧
    Act.glfwInit ∈ (Prog2.main envGladFail 0).2 ∧
    Act.createWindow SCR_WIDTH SCR_HEIGHT "cr1ms0nh3ad" ∈
      (Prog2.main envGladFail 0).2 ∧
    Act.terminate ∉ (Prog2.main envGladFail 0).2 := by
  decide

/-- C3 amended: for every environment and fuel, both programs exit with code
0 exactly when startup fully succeeds and -1 otherwise; `glfwTerminate` is
performed exactly once — as the final action — on the window-creation-failure
path and on the normal-teardown path, and never on the loader-failure path,
whose final action is the GLAD diagnostic message. -/
theorem exit_codes_and_teardown (env : Env) (fuel : Nat) :
    (Prog1.main env fuel).1 =
      (if env.windowCreated && env.gladOk then 0 else -1) ∧
    (Prog2.main env fuel).1 =
      (if env.windowCreated && env.gladOk then 0 else -1) ∧
    List.countP isTerminateAct (Prog1.main env fuel).2 =
      (if !env.windowCreated || env.gladOk then 1 else 0) ∧
    List.countP isTerminateAct (Prog2.main env fuel).2 =
      (if !env.windowCreated || env.gladOk then 1 else 0) ∧
    (Prog1.main env fuel).2.getLast? =
      (if !env.windowCreated || env.gladOk then some Act.terminate
       else some (Act.logMsg "failed to initialize GLAD")) ∧
    (Prog2.main env fuel).2.getLast? =
      (if !env.windowCreated || env.gladOk then some Act.terminate
       else some (Act.logMsg "failed to initialize GLAD")) := by
  have hterm1 : ∀ n,
      List.countP isTerminateAct (iterTrace env Prog1.renderBody n) = 0 := by
    intro n
    rw [countP_iterTrace env _ isTerminateAct n rfl rfl rfl rfl
      (fun _ _ _ _ => rfl)]
    rfl
  have hterm2 : ∀ n,
      List.countP isTerminateAct (iterTrace env Prog2.renderBody n) = 0 := by
    intro n
    rw [countP_iterTrace env _ isTerminateAct n rfl rfl rfl rfl
      (fun _ _ _ _ => rfl)]
    rfl
  have hsetup2 : List.countP isTerminateAct (Prog2.setupTrace env) = 0 := by
    cases hv : env.vertexCompileOk <;> cases hl : env.linkOk <;>
      simp [Prog2.setupTrace, Prog2.buildTrace, hv, hl, contextReadyTrace,
        preWindowTrace, Prog2.geometryTrace, List.countP_append,
        List.countP_cons, isTerminateAct]
  cases hw : env.windowCreated <;> cases hg : env.gladOk
  · refine ⟨?_, ?_, ?_, ?_, ?_, ?_⟩ <;> simp [Prog1.main, Prog2.main, hw] <;>
      decide
  · refine ⟨?_, ?_, ?_, ?_, ?_, ?_⟩ <;> simp [Prog1.main, Prog2.main, hw] <;>
      decide
  · refine ⟨?_, ?_, ?_, ?_, ?_, ?_⟩ <;>
      simp [Prog1.main, Prog2.main, hw, hg] <;> decide
  · refine ⟨?_, ?_, ?_, ?_, ?_, ?_⟩
    · simp [Prog1.main, hw, hg]
    · simp [Prog2.main, hw, hg]
    · simp [Prog1.main, hw, hg, List.countP_append,
        countP_runLoop_zero env Prog1.renderBody isTerminateAct hterm1,
        contextReadyTrace, preWindowTrace, List.countP_cons, isTerminateAct]
    · simp [Prog2.main, hw, hg, List.countP_append,
        countP_runLoop_zero env Prog2.renderBody isTerminateAct hterm2,
        hsetup2, List.countP_cons, isTerminateAct]
    · simp [Prog1.main, hw, hg, getLast_append_pair]
    · simp [Prog2.main, hw, hg, getLast_append_pair]

lemma runLoop_skip (env : Env) (body : List Act) (st : WindowState)
    (hst : st.shouldClose = false) :
    ∀ (n fuel start : Nat), (∀ j, j < n → env.keyPressed (start + j) = false) →
      n ≤ fuel →
      runLoop env body fuel start st =
        iterSeq (fun j => iterTrace env body (start + j)) n ++
          runLoop env body (fuel - n) (start + n) st := by
  intro n
  induction n with
  | zero => intro fuel start h hle; simp [iterSeq]
  | succ n ih =>
    intro fuel start h hle
    have h1 := ih fuel start (fun j hj => h j (Nat.lt_succ_of_lt hj))
      (Nat.le_of_succ_le hle)
    obtain ⟨m, hm⟩ : ∃ m, fuel - n = m + 1 := ⟨fuel - (n+1), by omega⟩
    have hkey : env.keyPressed (start + n) = false := h n (Nat.lt_succ_self n)
    have h2 : runLoop env body (fuel - n) (start + n) st =
        iterTrace env body (start + n) ++
          runLoop env body (fuel - (n+1)) (start + (n+1)) st := by
      rw [hm]
      have hms : m = fuel - (n+1) := by omega
      simp [runLoop, hst, hkey, processInput_false, ← hms]
      rfl
    rw [h1, h2]
    simp [iterSeq, List.append_assoc]

lemma runLoop_stop (env : Env) (body : List Act) (st : WindowState)
    (hst : st.shouldClose = false) (start fuel : Nat)
    (hk : env.keyPressed start = true) (hf : 1 ≤ fuel) :
    runLoop env body fuel start st = iterTrace env body start := by
  obtain ⟨m, hm⟩ : ∃ m, fuel = m + 1 := ⟨fuel - 1, by omega⟩
  subst hm
  have hcl : (processInput (env.keyPressed start) st).shouldClose = true := by
    rw [hk, processInput_true]
  simp [runLoop, hst,
    runLoop_stopped env body m (start+1) (processInput (env.keyPressed start) st) hcl]

lemma runLoop_shape (env : Env) (body : List Act) (k fuel : Nat)
    (hk : env.keyPressed k = true)
    (hmin : ∀ j, j < k → env.keyPressed j = false) (hf : k < fuel) :
    runLoop env body fuel 0 initialWindow =
      iterSeq (iterTrace env body) (k + 1) := by
  have h0 : initialWindow.shouldClose = false := rfl
  have h1 := runLoop_skip env body initialWindow h0 k fuel 0
    (fun j hj => by simpa using hmin j hj) (Nat.le_of_lt hf)
  have h2 : runLoop env body (fuel - k) (0 + k) initialWindow =
      iterTrace env body (0 + k) :=
    runLoop_stop env body initialWindow h0 (0 + k) (fuel - k)
      (by simpa using hk) (by omega)
  rw [h1, h2]
  simp only [Nat.zero_add]
  simp [iterSeq]

lemma countP_iterSeq_zero (p : Act → Bool) (f : Nat → List Act) :
    ∀ m, (∀ j, j < m → List.countP p (f j) = 0) →
      List.countP p (iterSeq f m) = 0 := by
  intro m
  induction m with
  | zero => intro h; rfl
  | succ m ih =>
    intro h
    simp [iterSeq, List.countP_append,
      ih (fun j hj => h j (Nat.lt_succ_of_lt hj)), h m (Nat.lt_succ_self m)]

lemma countP_iterSeq_one (p : Act → Bool) (f : Nat → List Act) :
    ∀ m, (∀ j, j < m → List.countP p (f j) = 1) →
      List.countP p (iterSeq f m) = m := by
  intro m
  induction m with
  | zero => intro h; rfl
  | succ m ih =>
    intro h
    simp [iterSeq, List.countP_append,
      ih (fun j hj => h j (Nat.lt_succ_of_lt hj)), h m (Nat.lt_succ_self m)]

/-- C2: with backspace first observed pressed at iteration `k` (and enough
fuel), the second program's frame loop runs exactly iterations `0..k` and
then tears down: the should-close transition is performed exactly once in
the whole trace, inside iteration `k`'s segment; each of the `k+1`
iterations issues exactly one draw call; and no draw call occurs after
iteration `k` — the trace after the loop is the single terminate action. -/
theorem frame_loop_stops_once_after_key_press (env : Env) (fuel k : Nat)
    (hW : env.windowCreated = true) (hG : env.gladOk = true)
    (hk : env.keyPressed k = true)
    (hmin : ∀ j, j < k → env.keyPressed j = false)
    (hf : k < fuel) :
    (Prog2.main env fuel).2 =
      Prog2.setupTrace env ++
        iterSeq (iterTrace env Prog2.renderBody) (k + 1) ++ [Act.terminate] ∧
    List.countP isSetCloseAct (Prog2.main env fuel).2 = 1 ∧
    Act.setWindowShouldClose ∈ iterTrace env Prog2.renderBody k ∧
    List.countP isDrawAct (Prog2.main env fuel).2 = k + 1 ∧
    List.countP isDrawAct (iterTrace env Prog2.renderBody k) = 1 := by
  have hmain : (Prog2.main env fuel).2 =
      Prog2.setupTrace env ++
        runLoop env Prog2.renderBody fuel 0 initialWindow ++ [Act.terminate] := by
    simp [Prog2.main, hW, hG]
  have hshape := runLoop_shape env Prog2.renderBody k fuel hk hmin hf
  have hdraw_iter : ∀ n,
      List.countP isDrawAct (iterTrace env Prog2.renderBody n) = 1 := by
    intro n
    rw [countP_iterTrace env _ isDrawAct n rfl rfl rfl rfl (fun _ _ _ _ => rfl)]
    rfl
  have hsetup_setclose :
      List.countP isSetCloseAct (Prog2.setupTrace env) = 0 := by
    cases hv : env.vertexCompileOk <;> cases hl : env.linkOk <;>
      simp [Prog2.setupTrace, Prog2.buildTrace, hv, hl, contextReadyTrace,
        preWindowTrace, Prog2.geometryTrace, List.countP_append,
        List.countP_cons, isSetCloseAct]
  have hsetup_draw : List.countP isDrawAct (Prog2.setupTrace env) = 0 := by
    cases hv : env.vertexCompileOk <;> cases hl : env.linkOk <;>
      simp [Prog2.setupTrace, Prog2.buildTrace, hv, hl, contextReadyTrace,
        preWindowTrace, Prog2.geometryTrace, List.countP_append,
        List.countP_cons, isDrawAct]
  refine ⟨by rw [hmain, hshape], ?_, ?_, ?_, hdraw_iter k⟩
  · rw [hmain, hshape]
    have hsplit : iterSeq (iterTrace env Prog2.renderBody) (k+1) =
        iterSeq (iterTrace env Prog2.renderBody) k ++
          iterTrace env Prog2.renderBody k := rfl
    rw [hsplit]
    have hzero : List.countP isSetCloseAct
        (iterSeq (iterTrace env Prog2.renderBody) k) = 0 :=
      countP_iterSeq_zero isSetCloseAct _ k (fun j hj => by
        rw [countP_setClose_iterTrace env Prog2.renderBody j rfl, hmin j hj]
        rfl)
    have hone : List.countP isSetCloseAct (iterTrace env Prog2.renderBody k) = 1 := by
      rw [countP_setClose_iterTrace env Prog2.renderBody k rfl, hk]
      rfl
    simp [List.countP_append, hsetup_setclose, hzero, hone, isSetCloseAct]
  · simp [iterTrace, processInputTrace, hk]
  · rw [hmain, hshape]
    have hloop : List.countP isDrawAct
        (iterSeq (iterTrace env Prog2.renderBody) (k+1)) = k + 1 :=
      countP_iterSeq_one isDrawAct _ (k+1) (fun j _ => hdraw_iter j)
    simp [List.countP_append, hsetup_draw, hloop, isDrawAct]

/-- C5: for any iteration `n` that the second program's loop actually
reaches while RUNNING (no exit observed at iterations before `n`, fuel
remaining), the full trace decomposes as the setup, the earlier iterations,
then iteration `n`'s actions in exactly this fixed order — (1) the key
sample with its conditional should-close write, (2) clear color and clear,
(3) program bind, (4) array-handle and index-buffer binds, (5) the single
indexed draw of 6 indices interpreted as triangles, (6) the buffer swap,
(7) event polling running one viewport-setting resize callback per
delivered event — followed by the rest of the run and teardown. -/
theorem frame_iteration_action_order (env : Env) (fuel n : Nat)
    (hW : env.windowCreated = true) (hG : env.gladOk = true)
    (hrun : ∀ j, j < n → env.keyPressed j = false)
    (hf : n < fuel) :
    (Prog2.main env fuel).2 =
      Prog2.setupTrace env ++
      iterSeq (iterTrace env Prog2.renderBody) n ++
      ([Act.getKey GLFW_KEY_BACKSPACE] ++
       (if env.keyPressed n then [Act.setWindowShouldClose] else []) ++
       [Act.clearColor 0 0 0 1, Act.clearColorBuffer,
        Act.useProgram Prog2.shaderProgram,
        Act.bindVertexArray Prog2.VAO,
        Act.bindBuffer BufferTarget.elementArrayBuffer Prog2.EBO,
        Act.drawElements DrawMode.triangles 6 IndexType.unsignedInt 0,
        Act.swapBuffers, Act.pollEvents] ++
       (env.resizes n).map (fun r => framebuffer_size_callback r.1 r.2)) ++
      (runLoop env Prog2.renderBody (fuel - (n+1)) (n+1)
        (processInput (env.keyPressed n) initialWindow) ++
       [Act.terminate]) := by
  have hmain : (Prog2.main env fuel).2 =
      Prog2.setupTrace env ++
        runLoop env Prog2.renderBody fuel 0 initialWindow ++ [Act.terminate] := by
    simp [Prog2.main, hW, hG]
  have h0 : initialWindow.shouldClose = false := rfl
  have hskip := runLoop_skip env Prog2.renderBody initialWindow h0 n fuel 0
    (fun j hj => by simpa using hrun j hj) (Nat.le_of_lt hf)
  have hskip2 : runLoop env Prog2.renderBody fuel 0 initialWindow =
      iterSeq (iterTrace env Prog2.renderBody) n ++
        runLoop env Prog2.renderBody (fuel - n) n initialWindow := by
    rw [hskip]
    simp only [Nat.zero_add]
  obtain ⟨m, hm⟩ : ∃ m, fuel - n = m + 1 := ⟨fuel - (n+1), by omega⟩
  have hstep : runLoop env Prog2.renderBody (fuel - n) n initialWindow =
      iterTrace env Prog2.renderBody n ++
        runLoop env Prog2.renderBody (fuel - (n+1)) (n+1)
          (processInput (env.keyPressed n) initialWindow) := by
    rw [hm]
    have hms : m = fuel - (n+1) := by omega
    rw [← hms]
    simp [runLoop, initialWindow]
  have hiter : iterTrace env Prog2.renderBody n =
      [Act.getKey GLFW_KEY_BACKSPACE] ++
      (if env.keyPressed n then [Act.setWindowShouldClose] else []) ++
      [Act.clearColor 0 0 0 1, Act.clearColorBuffer,
       Act.useProgram Prog2.shaderProgram,
       Act.bindVertexArray Prog2.VAO,
       Act.bindBuffer BufferTarget.elementArrayBuffer Prog2.EBO,
       Act.drawElements DrawMode.triangles 6 IndexType.unsignedInt 0,
       Act.swapBuffers, Act.pollEvents] ++
      (env.resizes n).map (fun r => framebuffer_size_callback r.1 r.2) := by
    cases hkn : env.keyPressed n <;>
      simp [iterTrace, processInputTrace, Prog2.renderBody, hkn]
  rw [hmain, hskip2, hstep, hiter]
  simp [List.append_assoc]

lemma scanHits_append {σ : Type} (upd : σ → Act → σ) (hit : Act → Bool) :
    ∀ (xs ys : List Act) (s : σ),
      scanHits upd hit s (xs ++ ys) =
        scanHits upd hit s xs ++
          scanHits upd hit (List.foldl upd s xs) ys := by
  intro xs
  induction xs with
  | nil => intro ys s; rfl
  | cons a xs ih => intro ys s; simp [scanHits, ih, List.append_assoc]

lemma scanHits_nil_of_countP_zero {σ : Type} (upd : σ → Act → σ)
    (hit : Act → Bool) :
    ∀ (l : List Act) (s : σ), List.countP hit l = 0 →
      scanHits upd hit s l = [] := by
  intro l
  induction l with
  | nil => intro s h; rfl
  | cons a l ih =>
    intro s h
    rw [List.countP_cons] at h
    cases hha : hit a
    · rw [hha] at h
      simp at h
      have hl : List.countP hit l = 0 :=
        List.countP_eq_zero.mpr (fun a ha => by simp [h a ha])
      simp [scanHits, hha, ih _ hl]
    · rw [hha] at h
      simp at h

lemma foldl_vpUpd_resize_map :
    ∀ (rs : List (Int × Int)) (v : Int × Int),
      List.foldl vpUpd v
          (rs.map (fun r => framebuffer_size_callback r.1 r.2)) =
        lastResize v rs := by
  intro rs
  induction rs with
  | nil => intro v; rfl
  | cons r rs ih =>
    intro v
    have h1 : vpUpd v (framebuffer_size_callback r.1 r.2) = (r.1, r.2) := rfl
    simp only [List.map_cons, List.foldl_cons, h1]
    rw [ih]
    simp [lastResize]

lemma foldl_modeUpd_resize_map :
    ∀ (rs : List (Int × Int)) (m : PolyMode),
      List.foldl modeUpd m
          (rs.map (fun r => framebuffer_size_callback r.1 r.2)) = m := by
  intro rs
  induction rs with
  | nil => intro m; rfl
  | cons r rs ih =>
    intro m
    have h1 : modeUpd m (framebuffer_size_callback r.1 r.2) = m := rfl
    simp only [List.map_cons, List.foldl_cons, h1]
    exact ih m

lemma scanHits_iterSeq {σ : Type} (upd : σ → Act → σ) (hit : Act → Bool)
    (f : Nat → List Act) (step : σ → Nat → σ)
    (h1 : ∀ (s : σ) (j : Nat), scanHits upd hit s (f j) = [s])
    (h2 : ∀ (s : σ) (j : Nat), List.foldl upd s (f j) = step s j) :
    ∀ (m : Nat) (v0 : σ),
      scanHits upd hit v0 (iterSeq f m) = stepsList step v0 m ∧
      List.foldl upd v0 (iterSeq f m) = stepIter step v0 m := by
  intro m
  induction m with
  | zero => intro v0; exact ⟨rfl, rfl⟩
  | succ m ih =>
    intro v0
    obtain ⟨ihs, ihf⟩ := ih v0
    have hse : iterSeq f (m+1) = iterSeq f m ++ f m := rfl
    constructor
    · rw [hse, scanHits_append, ihs, ihf, h1]
      rfl
    · rw [hse, List.foldl_append, ihf, h2]
      rfl

lemma vp_scan_draw_iter2 (env : Env) (s : Int × Int) (n : Nat) :
    scanHits vpUpd isDrawAct s (iterTrace env Prog2.renderBody n) = [s] := by
  cases hkn : env.keyPressed n <;>
    simp [iterTrace, processInputTrace, Prog2.renderBody, hkn, scanHits,
      vpUpd, isDrawAct,
      scanHits_nil_of_countP_zero vpUpd isDrawAct _ s
        (countP_resize_map isDrawAct (fun _ _ _ _ => rfl) (env.resizes n))]

lemma vp_scan_clear_iter2 (env : Env) (s : Int × Int) (n : Nat) :
    scanHits vpUpd isClearAct s (iterTrace env Prog2.renderBody n) = [s] := by
  cases hkn : env.keyPressed n <;>
    simp [iterTrace, processInputTrace, Prog2.renderBody, hkn, scanHits,
      vpUpd, isClearAct,
      scanHits_nil_of_countP_zero vpUpd isClearAct _ s
        (countP_resize_map isClearAct (fun _ _ _ _ => rfl) (env.resizes n))]

lemma vp_scan_clear_iter1 (env : Env) (s : Int × Int) (n : Nat) :
    scanHits vpUpd isClearAct s (iterTrace env Prog1.renderBody n) = [s] := by
  cases hkn : env.keyPressed n <;>
    simp [iterTrace, processInputTrace, Prog1.renderBody, hkn, scanHits,
      vpUpd, isClearAct,
      scanHits_nil_of_countP_zero vpUpd isClearAct _ s
        (countP_resize_map isClearAct (fun _ _ _ _ => rfl) (env.resizes n))]

lemma vp_fold_iter2 (env : Env) (s : Int × Int) (n : Nat) :
    List.foldl vpUpd s (iterTrace env Prog2.renderBody n) = vpStep env s n := by
  cases hkn : env.keyPressed n <;>
    simp [iterTrace, processInputTrace, Prog2.renderBody, hkn,
      List.foldl_append, vpUpd, vpStep, foldl_vpUpd_resize_map]

lemma vp_fold_iter1 (env : Env) (s : Int × Int) (n : Nat) :
    List.foldl vpUpd s (iterTrace env Prog1.renderBody n) = vpStep env s n := by
  cases hkn : env.keyPressed n <;>
    simp [iterTrace, processInputTrace, Prog1.renderBody, hkn,
      List.foldl_append, vpUpd, vpStep, foldl_vpUpd_resize_map]

lemma mode_scan_draw_iter2 (env : Env) (m : PolyMode) (n : Nat) :
    scanHits modeUpd isDrawAct m (iterTrace env Prog2.renderBody n) = [m] := by
  cases hkn : env.keyPressed n <;>
    simp [iterTrace, processInputTrace, Prog2.renderBody, hkn, scanHits,
      modeUpd, isDrawAct,
      scanHits_nil_of_countP_zero modeUpd isDrawAct _ m
        (countP_resize_map isDrawAct (fun _ _ _ _ => rfl) (env.resizes n))]

lemma mode_fold_iter2 (env : Env) (m : PolyMode) (n : Nat) :
    List.foldl modeUpd m (iterTrace env Prog2.renderBody n) = m := by
  cases hkn : env.keyPressed n <;>
    simp [iterTrace, processInputTrace, Prog2.renderBody, hkn,
      List.foldl_append, modeUpd, foldl_modeUpd_resize_map]

lemma mode_scan_runLoop (env : Env) :
    ∀ (fuel n : Nat) (st : WindowState),
      scanHits modeUpd isDrawAct PolyMode.line
          (runLoop env Prog2.renderBody fuel n st) =
        List.replicate
          (List.countP isDrawAct (runLoop env Prog2.renderBody fuel n st))
          PolyMode.line := by
  intro fuel
  induction fuel with
  | zero => intro n st; rfl
  | succ fuel ih =>
    intro n st
    cases hsc : st.shouldClose
    · have hdraw : List.countP isDrawAct (iterTrace env Prog2.renderBody n) = 1 := by
        rw [countP_iterTrace env _ isDrawAct n rfl rfl rfl rfl
          (fun _ _ _ _ => rfl)]
        rfl
      simp [runLoop, hsc, scanHits_append, List.countP_append,
        mode_scan_draw_iter2, mode_fold_iter2, hdraw, ih, List.replicate_add]
    · simp [runLoop, hsc, scanHits]

/-- C9: in the second program (whenever startup succeeds, for any fuel and
any key/resize schedule) the polygon rasterization mode is set exactly once
in the whole trace — to line (wireframe) for front and back faces, before
the frame loop — so the mode in effect at every draw call of every
iteration is line: reading the trace with the GL default mode (fill) as the
initial state, the modes observed at the draw calls are all line. -/
theorem wireframe_mode_set_once_all_draws_line (env : Env) (fuel : Nat)
    (hW : env.windowCreated = true) (hG : env.gladOk = true) :
    List.countP isPolygonModeAct (Prog2.main env fuel).2 = 1 ∧
    Act.polygonMode PolyFace.frontAndBack PolyMode.line ∈
      Prog2.setupTrace env ∧
    scanHits modeUpd isDrawAct PolyMode.fill (Prog2.main env fuel).2 =
      List.replicate (List.countP isDrawAct (Prog2.main env fuel).2)
        PolyMode.line := by
  have hmain : (Prog2.main env fuel).2 =
      Prog2.setupTrace env ++
        runLoop env Prog2.renderBody fuel 0 initialWindow ++ [Act.terminate] := by
    simp [Prog2.main, hW, hG]
  have hpm_iter : ∀ n,
      List.countP isPolygonModeAct (iterTrace env Prog2.renderBody n) = 0 := by
    intro n
    rw [countP_iterTrace env _ isPolygonModeAct n rfl rfl rfl rfl
      (fun _ _ _ _ => rfl)]
    rfl
  have hpm_loop := countP_runLoop_zero env Prog2.renderBody isPolygonModeAct
    hpm_iter fuel 0 initialWindow
  have hpm_setup : List.countP isPolygonModeAct (Prog2.setupTrace env) = 1 := by
    cases hv : env.vertexCompileOk <;> cases hl : env.linkOk <;>
      simp [Prog2.setupTrace, Prog2.buildTrace, hv, hl, contextReadyTrace,
        preWindowTrace, Prog2.geometryTrace, List.countP_append,
        List.countP_cons, isPolygonModeAct]
  have hdraw_setup : List.countP isDrawAct (Prog2.setupTrace env) = 0 := by
    cases hv : env.vertexCompileOk <;> cases hl : env.linkOk <;>
      simp [Prog2.setupTrace, Prog2.buildTrace, hv, hl, contextReadyTrace,
        preWindowTrace, Prog2.geometryTrace, List.countP_append,
        List.countP_cons, isDrawAct]
  refine ⟨?_, ?_, ?_⟩
  · rw [hmain]
    simp [List.countP_append, hpm_setup, hpm_loop, isPolygonModeAct]
  · simp [Prog2.setupTrace]
  · rw [hmain]
    have hsetup_scan :
        scanHits modeUpd isDrawAct PolyMode.fill (Prog2.setupTrace env) = [] :=
      scanHits_nil_of_countP_zero modeUpd isDrawAct _ _ hdraw_setup
    have hsetup_fold :
        List.foldl modeUpd PolyMode.fill (Prog2.setupTrace env) =
          PolyMode.line := by
      cases hv : env.vertexCompileOk <;> cases hl : env.linkOk <;>
        simp [Prog2.setupTrace, Prog2.buildTrace, hv, hl, contextReadyTrace,
          preWindowTrace, Prog2.geometryTrace, List.foldl_append, modeUpd]
    rw [List.append_assoc, scanHits_append, hsetup_scan, hsetup_fold,
      scanHits_append, mode_scan_runLoop env fuel 0 initialWindow]
    simp [List.countP_append, hdraw_setup, scanHits, isDrawAct]

/-- C6: for a run of either program that stops at iteration `k` (first key
press at `k`, enough fuel), reading the trace with any initial viewport
`v0`: the viewport in effect at each of the second program's draw calls
(and equally at each clear of either program) is exactly, iteration by
iteration, the size set by the last resize event processed before that
iteration (or `v0` if none has been processed) — so every processed resize
updates the viewport before the next clear-and-draw cycle and no draw is
issued with a stale viewport; the first program issues no draw calls at
all. -/
theorem draws_use_latest_processed_viewport (env : Env) (fuel k : Nat)
    (hW : env.windowCreated = true) (hG : env.gladOk = true)
    (hk : env.keyPressed k = true)
    (hmin : ∀ j, j < k → env.keyPressed j = false)
    (hf : k < fuel) (v0 : Int × Int) :
    scanHits vpUpd isDrawAct v0 (Prog2.main env fuel).2 =
      stepsList (vpStep env) v0 (k + 1) ∧
    scanHits vpUpd isClearAct v0 (Prog2.main env fuel).2 =
      stepsList (vpStep env) v0 (k + 1) ∧
    scanHits vpUpd isClearAct v0 (Prog1.main env fuel).2 =
      stepsList (vpStep env) v0 (k + 1) ∧
    scanHits vpUpd isDrawAct v0 (Prog1.main env fuel).2 = [] := by
  have hmain2 : (Prog2.main env fuel).2 =
      Prog2.setupTrace env ++
        runLoop env Prog2.renderBody fuel 0 initialWindow ++ [Act.terminate] := by
    simp [Prog2.main, hW, hG]
  have hmain1 : (Prog1.main env fuel).2 =
      contextReadyTrace ++
        runLoop env Prog1.renderBody fuel 0 initialWindow ++ [Act.terminate] := by
    simp [Prog1.main, hW, hG]
  have hshape2 := runLoop_shape env Prog2.renderBody k fuel hk hmin hf
  have hshape1 := runLoop_shape env Prog1.renderBody k fuel hk hmin hf
  have hdraw_setup : List.countP isDrawAct (Prog2.setupTrace env) = 0 := by
    cases hv : env.vertexCompileOk <;> cases hl : env.linkOk <;>
      simp [Prog2.setupTrace, Prog2.buildTrace, hv, hl, contextReadyTrace,
        preWindowTrace, Prog2.geometryTrace, List.countP_append,
        List.countP_cons, isDrawAct]
  have hclear_setup : List.countP isClearAct (Prog2.setupTrace env) = 0 := by
    cases hv : env.vertexCompileOk <;> cases hl : env.linkOk <;>
      simp [Prog2.setupTrace, Prog2.buildTrace, hv, hl, contextReadyTrace,
        preWindowTrace, Prog2.geometryTrace, List.countP_append,
        List.countP_cons, isClearAct]
  have hfold_setup : List.foldl vpUpd v0 (Prog2.setupTrace env) = v0 := by
    cases hv : env.vertexCompileOk <;> cases hl : env.linkOk <;>
      simp [Prog2.setupTrace, Prog2.buildTrace, hv, hl, contextReadyTrace,
        preWindowTrace, Prog2.geometryTrace, List.foldl_append, vpUpd]
  have hfold_ctx : List.foldl vpUpd v0 contextReadyTrace = v0 := rfl
  have hiter2 := scanHits_iterSeq vpUpd isDrawAct
    (iterTrace env Prog2.renderBody) (vpStep env)
    (fun s j => vp_scan_draw_iter2 env s j) (fun s j => vp_fold_iter2 env s j)
    (k + 1) v0
  have hiter2c := scanHits_iterSeq vpUpd isClearAct
    (iterTrace env Prog2.renderBody) (vpStep env)
    (fun s j => vp_scan_clear_iter2 env s j) (fun s j => vp_fold_iter2 env s j)
    (k + 1) v0
  have hiter1c := scanHits_iterSeq vpUpd isClearAct
    (iterTrace env Prog1.renderBody) (vpStep env)
    (fun s j => vp_scan_clear_iter1 env s j) (fun s j => vp_fold_iter1 env s j)
    (k + 1) v0
  refine ⟨?_, ?_, ?_, ?_⟩
  · rw [hmain2, hshape2, List.append_assoc, scanHits_append, hfold_setup,
      scanHits_append, hiter2.1,
      scanHits_nil_of_countP_zero vpUpd isDrawAct _ _ hdraw_setup]
    simp [scanHits, isDrawAct]
  · rw [hmain2, hshape2, List.append_assoc, scanHits_append, hfold_setup,
      scanHits_append, hiter2c.1,
      scanHits_nil_of_countP_zero vpUpd isClearAct _ _ hclear_setup]
    simp [scanHits, isClearAct]
  · have hctx : scanHits vpUpd isClearAct v0 contextReadyTrace = [] := rfl
    rw [hmain1, hshape1, List.append_assoc, scanHits_append, hfold_ctx,
      scanHits_append, hiter1c.1, hctx]
    simp [scanHits, isClearAct]
  · have hdraw_iter1 : ∀ n,
        List.countP isDrawAct (iterTrace env Prog1.renderBody n) = 0 := by
      intro n
      rw [countP_iterTrace env _ isDrawAct n rfl rfl rfl rfl
        (fun _ _ _ _ => rfl)]
      rfl
    have hzero : List.countP isDrawAct (Prog1.main env fuel).2 = 0 := by
      rw [hmain1]
      simp [List.countP_append,
        countP_runLoop_zero env Prog1.renderBody isDrawAct hdraw_iter1,
        contextReadyTrace, preWindowTrace, List.countP_cons, isDrawAct]
    exact scanHits_nil_of_countP_zero vpUpd isDrawAct _ _ hzero

/-- Sample environment: startup succeeds, both shader stages compile and
link, backspace is first observed pressed at iteration 1, and one resize
event (800 x 600) is delivered by iteration 0's event poll. -/
def envW : Env :=
  { windowCreated := true, gladOk := true, vertexCompileOk := true,
    fragmentCompileOk := true, linkOk := true, vertexInfoLog := "",
    fragmentInfoLog := "", programInfoLog := "",
    keyPressed := fun n => n == 1,
    resizes := fun n => if n == 0 then [(800, 600)] else [] }

/-- Witness for C2 at the concrete environment `envW` (first press at
iteration 1) with fuel 3. -/
theorem frame_loop_stops_once_witness :
    envW.keyPressed 1 = true ∧ 1 < 3 ∧
    ((Prog2.main envW 3).2 =
        Prog2.setupTrace envW ++
          iterSeq (iterTrace envW Prog2.renderBody) 2 ++ [Act.terminate] ∧
      List.countP isSetCloseAct (Prog2.main envW 3).2 = 1 ∧
      Act.setWindowShouldClose ∈ iterTrace envW Prog2.renderBody 1 ∧
      List.countP isDrawAct (Prog2.main envW 3).2 = 2 ∧
      List.countP isDrawAct (iterTrace envW Prog2.renderBody 1) = 1) :=
  ⟨rfl, by decide,
    frame_loop_stops_once_after_key_press envW 3 1 rfl rfl rfl
      (by decide) (by decide)⟩

/-- Witness for C5 at the concrete environment `envW`, iteration 0,
fuel 3. -/
theorem frame_iteration_action_order_witness :
    0 < 3 ∧
    (Prog2.main envW 3).2 =
      Prog2.setupTrace envW ++
      iterSeq (iterTrace envW Prog2.renderBody) 0 ++
      ([Act.getKey GLFW_KEY_BACKSPACE] ++
       (if envW.keyPressed 0 then [Act.setWindowShouldClose] else []) ++
       [Act.clearColor 0 0 0 1, Act.clearColorBuffer,
        Act.useProgram Prog2.shaderProgram,
        Act.bindVertexArray Prog2.VAO,
        Act.bindBuffer BufferTarget.elementArrayBuffer Prog2.EBO,
        Act.drawElements DrawMode.triangles 6 IndexType.unsignedInt 0,
        Act.swapBuffers, Act.pollEvents] ++
       (envW.resizes 0).map (fun r => framebuffer_size_callback r.1 r.2)) ++
      (runLoop envW Prog2.renderBody (3 - (0+1)) (0+1)
        (processInput (envW.keyPressed 0) initialWindow) ++
       [Act.terminate]) :=
  ⟨by decide,
    frame_iteration_action_order envW 3 0 rfl rfl (by decide) (by decide)⟩

/-- Witness for C6 at the concrete environment `envW` (resize at iteration
0, stop at iteration 1), fuel 3, initial viewport 1024 x 1024. -/
theorem draws_use_latest_processed_viewport_witness :
    envW.keyPressed 1 = true ∧
    (scanHits vpUpd isDrawAct (1024, 1024) (Prog2.main envW 3).2 =
        stepsList (vpStep envW) (1024, 1024) 2 ∧
      scanHits vpUpd isClearAct (1024, 1024) (Prog2.main envW 3).2 =
        stepsList (vpStep envW) (1024, 1024) 2 ∧
      scanHits vpUpd isClearAct (1024, 1024) (Prog1.main envW 3).2 =
        stepsList (vpStep envW) (1024, 1024) 2 ∧
      scanHits vpUpd isDrawAct (1024, 1024) (Prog1.main envW 3).2 = []) :=
  ⟨rfl, draws_use_latest_processed_viewport envW 3 1 rfl rfl rfl
    (by decide) (by decide) (1024, 1024)⟩

/-- Witness for C9 at the concrete environment `envW` with fuel 3. -/
theorem wireframe_mode_witness :
    List.countP isPolygonModeAct (Prog2.main envW 3).2 = 1 ∧
    Act.polygonMode PolyFace.frontAndBack PolyMode.line ∈
      Prog2.setupTrace envW ∧
    scanHits modeUpd isDrawAct PolyMode.fill (Prog2.main envW 3).2 =
      List.replicate (List.countP isDrawAct (Prog2.main envW 3).2)
        PolyMode.line :=
  wireframe_mode_set_once_all_draws_line envW 3 rfl rfl
